import Mathlib

/-!
Verification of the search/download frontend (`streamlit_app.py`, `utils.py`).

The development shallowly embeds the tabular data handled by the app:
a pandas DataFrame becomes a list of column names together with a list of
rows, each row a list of cells.  Fallible pandas operations (datetime
parsing, integer coercion) return `Option`; an exception raised by the
Python code is modelled as `none` / `Except.error`.
-/

/-- A single cell of the result table.  JSON null / pandas NaN is `null`;
dates and timestamps are kept structured (they stand for the values
`pd.to_datetime` produces from the backend's date strings). -/
inductive Cell where
  | null
  | str (s : String)
  | int (n : Int)
  | date (y m d : Nat)
  | timestamp (y mo d hh mi ss : Nat)
deriving Repr, DecidableEq

/-- A pandas DataFrame: named columns and rows of cells (row `r` holds the
value of column `cols[i]` at position `i`). -/
structure DataFrame where
  cols : List String
  rows : List (List Cell)
deriving Repr, DecidableEq

/-- The empty DataFrame, `pd.DataFrame()`. -/
def DataFrame.emptyDF : DataFrame := ⟨[], []⟩

/-- `df.empty` in pandas: true when either axis has length 0. -/
def DataFrame.isEmptyDF (df : DataFrame) : Bool :=
  df.rows.isEmpty || df.cols.isEmpty

/-- Value of column `c` in row `r` of a frame with columns `cols`. -/
def cellAt (cols : List String) (r : List Cell) (c : String) : Cell :=
  r.getD (cols.indexOf c) Cell.null

/-- Column projection `df[cs]`: keep columns `cs`, in that order. -/
def selectCols (df : DataFrame) (cs : List String) : DataFrame :=
  ⟨cs, df.rows.map (fun r => cs.map (fun c => cellAt df.cols r c))⟩

/-- Apply a fallible cell transform to column index `i` of every row;
the first failing cell aborts the whole operation (a raised exception). -/
def mapCellsM (f : Cell → Option Cell) (i : Nat) :
    List (List Cell) → Option (List (List Cell))
  | [] => some []
  | r :: rest =>
    match f (r.getD i Cell.null), mapCellsM f i rest with
    | some v, some rest' => some (r.set i v :: rest')
    | _, _ => none

/-- Apply a fallible transform to every cell of column `c`, as in
`df[c] = transform(df[c])`. -/
def mapColM (df : DataFrame) (c : String) (f : Cell → Option Cell) :
    Option DataFrame :=
  (mapCellsM f (df.cols.indexOf c) df.rows).map (fun rows => ⟨df.cols, rows⟩)

/-- Rename column `a` to `b`, as in `df.rename(columns={a: b})`. -/
def renameCol (df : DataFrame) (a b : String) : DataFrame :=
  ⟨df.cols.map (fun c => if c = a then b else c), df.rows⟩

/-- Zero-pad a number to two digits, as strftime does. -/
def pad2 (n : Nat) : String :=
  if n < 10 then "0" ++ toString n else toString n

/-- `pd.to_datetime(col).dt.strftime("%Y-%m-%d")` on one cell: dates and
timestamps render to `YYYY-MM-DD`, NaN stays NaN, anything unparseable
raises (`none`). -/
def strftimeDateCell : Cell → Option Cell
  | Cell.null => some Cell.null
  | Cell.date y m d => some (Cell.str (toString y ++ "-" ++ pad2 m ++ "-" ++ pad2 d))
  | Cell.timestamp y mo d _ _ _ =>
      some (Cell.str (toString y ++ "-" ++ pad2 mo ++ "-" ++ pad2 d))
  | _ => none

/-- `pd.to_datetime(col).dt.strftime("%Y-%m-%d %H:%M:%S")` on one cell. -/
def strftimeTimestampCell : Cell → Option Cell
  | Cell.null => some Cell.null
  | Cell.date y m d =>
      some (Cell.str (toString y ++ "-" ++ pad2 m ++ "-" ++ pad2 d ++ " 00:00:00"))
  | Cell.timestamp y mo d hh mi ss =>
      some (Cell.str (toString y ++ "-" ++ pad2 mo ++ "-" ++ pad2 d ++ " " ++
        pad2 hh ++ ":" ++ pad2 mi ++ ":" ++ pad2 ss))
  | _ => none

/-- `.fillna(0)` on one cell. -/
def fillnaZero : Cell → Cell
  | Cell.null => Cell.int 0
  | c => c

/-- `.astype(int)` on one cell: integers pass through, numeric strings
parse, anything else raises (`none`). -/
def astypeInt : Cell → Option Cell
  | Cell.int n => some (Cell.int n)
  | Cell.str s => (s.toInt?).map Cell.int
  | _ => none

/-- The `desired_order` column list of `format_search_results`. -/
def desired_order : List String :=
  ["file_name", "research_project_id", "author", "file_type",
   "experiment_type", "date_conducted", "size_bytes", "custom_tags",
   "upload_timestamp", "file_id", "minio_object_path"]

/-- `utils.format_search_results`: on an empty frame return an empty frame;
otherwise project onto the desired columns that exist, reformat the two
date columns, coerce `size_bytes` (NaN becomes 0) and rename it to
`size_in_bytes`.  `none` models a raised exception. -/
def format_search_results (df : DataFrame) : Option DataFrame :=
  if df.isEmptyDF then some DataFrame.emptyDF
  else
    let df1 := selectCols df (desired_order.filter (fun c => df.cols.contains c))
    (if df1.cols.contains "date_conducted" then
        mapColM df1 "date_conducted" strftimeDateCell
      else some df1).bind
      (fun df2 =>
        (if df2.cols.contains "upload_timestamp" then
            mapColM df2 "upload_timestamp" strftimeTimestampCell
          else some df2).bind
          (fun df3 =>
            if df3.cols.contains "size_bytes" then
              (mapColM df3 "size_bytes" (fun c => astypeInt (fillnaZero c))).map
                (fun df4 => renameCol df4 "size_bytes" "size_in_bytes")
            else some df3))

/-- One record returned by `GET /search` (spec: SearchResultRow).
`file_name` and `file_id` are strings; nullable fields are `Option`. -/
structure SearchResultRow where
  file_name : String
  research_project_id : String
  author : String
  file_type : String
  experiment_type : String
  date_conducted : Option (Nat × Nat × Nat)
  size_bytes : Option Int
  custom_tags : String
  upload_timestamp : Option (Nat × Nat × Nat × Nat × Nat × Nat)
  file_id : String
  minio_object_path : String
deriving Repr, DecidableEq

/-- A nullable date as a cell. -/
def dateCell : Option (Nat × Nat × Nat) → Cell
  | none => Cell.null
  | some (y, m, d) => Cell.date y m d

/-- A nullable timestamp as a cell. -/
def tsCell : Option (Nat × Nat × Nat × Nat × Nat × Nat) → Cell
  | none => Cell.null
  | some (y, mo, d, hh, mi, ss) => Cell.timestamp y mo d hh mi ss

/-- A nullable integer as a cell. -/
def intCell : Option Int → Cell
  | none => Cell.null
  | some n => Cell.int n

/-- The cells of one search-result record, in `desired_order` order. -/
def rowCells (x : SearchResultRow) : List Cell :=
  [Cell.str x.file_name, Cell.str x.research_project_id, Cell.str x.author,
   Cell.str x.file_type, Cell.str x.experiment_type,
   dateCell x.date_conducted, intCell x.size_bytes, Cell.str x.custom_tags,
   tsCell x.upload_timestamp, Cell.str x.file_id,
   Cell.str x.minio_object_path]

/-- `pd.DataFrame(st.session_state.search_results)`: an empty list gives an
empty frame; otherwise one column per record field, one row per record. -/
def toDataFrame (rs : List SearchResultRow) : DataFrame :=
  match rs with
  | [] => DataFrame.emptyDF
  | _ :: _ => ⟨desired_order, rs.map rowCells⟩

/-- The cells of a record after the date-column reformat. -/
def fmtDate : Option (Nat × Nat × Nat) → Cell
  | none => Cell.null
  | some (y, m, d) => Cell.str (toString y ++ "-" ++ pad2 m ++ "-" ++ pad2 d)

/-- The timestamp column's rendering after the reformat. -/
def fmtTs : Option (Nat × Nat × Nat × Nat × Nat × Nat) → Cell
  | none => Cell.null
  | some (y, mo, d, hh, mi, ss) =>
      Cell.str (toString y ++ "-" ++ pad2 mo ++ "-" ++ pad2 d ++ " " ++
        pad2 hh ++ ":" ++ pad2 mi ++ ":" ++ pad2 ss)

/-- Row cells after the `date_conducted` reformat step. -/
def row1 (x : SearchResultRow) : List Cell :=
  [Cell.str x.file_name, Cell.str x.research_project_id, Cell.str x.author,
   Cell.str x.file_type, Cell.str x.experiment_type,
   fmtDate x.date_conducted, intCell x.size_bytes, Cell.str x.custom_tags,
   tsCell x.upload_timestamp, Cell.str x.file_id,
   Cell.str x.minio_object_path]

/-- Row cells after the `upload_timestamp` reformat step. -/
def row2 (x : SearchResultRow) : List Cell :=
  [Cell.str x.file_name, Cell.str x.research_project_id, Cell.str x.author,
   Cell.str x.file_type, Cell.str x.experiment_type,
   fmtDate x.date_conducted, intCell x.size_bytes, Cell.str x.custom_tags,
   fmtTs x.upload_timestamp, Cell.str x.file_id,
   Cell.str x.minio_object_path]

/-- The fully formatted cells of one record. -/
def formattedRow (x : SearchResultRow) : List Cell :=
  [Cell.str x.file_name, Cell.str x.research_project_id, Cell.str x.author,
   Cell.str x.file_type, Cell.str x.experiment_type,
   fmtDate x.date_conducted, Cell.int (x.size_bytes.getD 0),
   Cell.str x.custom_tags, fmtTs x.upload_timestamp, Cell.str x.file_id,
   Cell.str x.minio_object_path]

/-- The column list of the formatted table. -/
def formattedCols : List String :=
  ["file_name", "research_project_id", "author", "file_type",
   "experiment_type", "date_conducted", "size_in_bytes", "custom_tags",
   "upload_timestamp", "file_id", "minio_object_path"]

/-- Python str() of a cell value, as used by the f-string that builds the
download URL. -/
def cellToStr : Cell → String
  | Cell.null => "nan"
  | Cell.str s => s
  | Cell.int n => toString n
  | Cell.date y m d => toString y ++ "-" ++ pad2 m ++ "-" ++ pad2 d
  | Cell.timestamp y mo d hh mi ss =>
      toString y ++ "-" ++ pad2 mo ++ "-" ++ pad2 d ++ " " ++
        pad2 hh ++ ":" ++ pad2 mi ++ ":" ++ pad2 ss

/-- The download section of `show_search_page` (lines 287-323).  Inputs are
the formatted results table and the two selectbox values; `none` models no
selection, and Python's truthiness test makes a blank string behave the
same way.  `Except.error` models an uncaught exception (`iloc[0]` on an
empty frame), `Except.ok none` means no download link is rendered, and
`Except.ok (some url)` a rendered link button pointing at `url`. -/
def downloadResolver (api_base_url : String) (results_df : DataFrame)
    (selected_filename : Option String) (selected_file_id : Option String) :
    Except String (Option String) :=
  match selected_filename with
  | none => Except.ok none
  | some s =>
    if s = "" then Except.ok none
    else
      let matching_files := results_df.rows.filter
        (fun r => decide (cellAt results_df.cols r "file_name" = Cell.str s))
      if 1 < matching_files.length then
        match selected_file_id with
        | none => Except.ok none
        | some fid =>
          if fid = "" then Except.ok none
          else Except.ok (some (api_base_url ++ "/download/" ++ fid))
      else
        match matching_files with
        | [] => Except.error "IndexError: single positional indexer is out-of-bounds"
        | r :: _ =>
          Except.ok (some (api_base_url ++ "/download/" ++
            cellToStr (cellAt results_df.cols r "file_id")))

/-- End-to-end resolution in `show_search_page`: the stored ResultSet is
turned into a frame, formatted, and the download section runs on the
formatted table. -/
def resolveFromResults (api_base_url : String) (rs : List SearchResultRow)
    (selected_filename selected_file_id : Option String) :
    Except String (Option String) :=
  downloadResolver api_base_url
    ((format_search_results (toDataFrame rs)).getD DataFrame.emptyDF)
    selected_filename selected_file_id

/-- The search form inputs (spec: SearchFilter).  Text inputs are strings
(blank for untouched), the two date pickers start as `None`. -/
structure SearchFilter where
  research_project_id : String
  author : String
  file_type : String
  experiment_type : String
  tags_contain : String
  date_after : Option (Nat × Nat × Nat)
  date_before : Option (Nat × Nat × Nat)
deriving Repr, DecidableEq

/-- Python date.isoformat(): `YYYY-MM-DD`. -/
def isoDate : Nat × Nat × Nat → String
  | (y, m, d) => toString y ++ "-" ++ pad2 m ++ "-" ++ pad2 d

/-- Lines 225-235 of `show_search_page`: the `params` dict literal followed
by the comprehension that keeps only truthy values (dropping `None` and
blank strings). -/
def searchParams (f : SearchFilter) : List (String × String) :=
  let params : List (String × Option String) :=
    [("research_project_id", some f.research_project_id),
     ("author", some f.author),
     ("file_type", some f.file_type),
     ("experiment_type", some f.experiment_type),
     ("tags_contain", some f.tags_contain),
     ("date_after", f.date_after.map isoDate),
     ("date_before", f.date_before.map isoDate)]
  params.filterMap (fun kv =>
    match kv.2 with
    | none => none
    | some v => if v = "" then none else some (kv.1, v))

/-- The upload metadata form fields (spec: UploadMetadata).  Text inputs
are strings; the date picker value is `Option` (a Python date is always
truthy, `None` is falsy). -/
structure UploadForm where
  research_project_id : String
  author : String
  experiment_type : String
  date_conducted : Option (Nat × Nat × Nat)
  custom_tags : String
deriving Repr, DecidableEq

/-- A scalar in the metadata document: a string or Python `None`. -/
inductive YamlValue where
  | s (v : String)
  | null
deriving Repr, DecidableEq

/-- The `metadata_dict` literal of `show_upload_page` (insertion order of
the Python dict). -/
def metadata_dict (f : UploadForm) : List (String × YamlValue) :=
  [("research_project_id", YamlValue.s f.research_project_id),
   ("author", YamlValue.s f.author),
   ("experiment_type", YamlValue.s f.experiment_type),
   ("date_conducted",
     match f.date_conducted with
     | some d => YamlValue.s (isoDate d)
     | none => YamlValue.null),
   ("custom_tags", YamlValue.s f.custom_tags)]

/-- Modelled rendering of one scalar by the external YAML library:
Python `None` dumps as `null`, the empty string as a pair of quotes, and
other plain strings as themselves (the library's quoting rules for special
characters are elided). -/
def yamlRender : YamlValue → String
  | YamlValue.null => "null"
  | YamlValue.s v => if v = "" then "''" else v

/-- The call `yaml.dump(metadata_dict, sort_keys=False)`: one
`key: value` line per entry, kept in insertion order (no key sorting). -/
def yaml_dump (kvs : List (String × YamlValue)) : String :=
  String.join (kvs.map (fun kv => kv.1 ++ ": " ++ yamlRender kv.2 ++ "\n"))

/-- The multipart request assembled on a valid submission. -/
structure MultipartRequest where
  url : String
  fileField : String
  fileName : String
  metadataYaml : String
deriving Repr, DecidableEq

/-- What the submit handler does before any network traffic: either an
inline field error with nothing serialized and no request issued, or a
fully assembled multipart request. -/
inductive FormAction where
  | fieldError (msg : String)
  | submitRequest (req : MultipartRequest)
deriving Repr, DecidableEq

/-- Submit handler of the single-file tab (lines 57-88): blank required
fields abort with the inline error before the metadata document exists;
otherwise the metadata is dumped to YAML and a multipart POST to
`/uploadfile/` is assembled. -/
def single_file_submit (api_base_url data_file_name : String)
    (f : UploadForm) : FormAction :=
  if f.research_project_id = "" ∨ f.author = "" then
    FormAction.fieldError "Please fill in all required fields (*)."
  else
    FormAction.submitRequest
      { url := api_base_url ++ "/uploadfile/", fileField := "data_file",
        fileName := data_file_name,
        metadataYaml := yaml_dump (metadata_dict f) }

/-- Submit handler of the folder tab (lines 139-174), identical except for
the endpoint and the file field name. -/
def folder_submit (api_base_url zip_file_name : String)
    (f : UploadForm) : FormAction :=
  if f.research_project_id = "" ∨ f.author = "" then
    FormAction.fieldError "Please fill in all required fields (*)."
  else
    FormAction.submitRequest
      { url := api_base_url ++ "/upload_folder/", fileField := "zip_file",
        fileName := zip_file_name,
        metadataYaml := yaml_dump (metadata_dict f) }

/-- Outcome of the `GET /search` round trip: a response carrying its
status code and, when the body parses as JSON, the decoded rows; or a
raised `requests.exceptions.RequestException`.  A 200 body that is not
parseable JSON makes `response.json()` raise
`requests.exceptions.JSONDecodeError`, itself a `RequestException`, so it
is the `jsonBody = none` case of `response`. -/
inductive SearchHttpResult where
  | response (status_code : Nat) (jsonBody : Option (List SearchResultRow))
  | requestException (msg : String)
deriving Repr, DecidableEq

/-- Lines 243-262 of `show_search_page`: the value stored into
`st.session_state.search_results` after the search button logic runs, as a
function of the previously stored ResultSet and the HTTP outcome.  Every
path assigns the field, so the previous value is never consulted. -/
def search_update (_prev : List SearchResultRow) (r : SearchHttpResult) :
    List SearchResultRow :=
  match r with
  | SearchHttpResult.response status body =>
    if status = 200 then
      match body with
      | some results => if results.isEmpty then [] else results
      | none => []
    else []
  | SearchHttpResult.requestException _ => []

/-- An HTTP response as the upload handler sees it: status code, raw text,
and the parsed JSON body kept abstractly as its rendered text (`none` when
the body is not parseable JSON, in which case `.json()` raises). -/
structure HttpResponse where
  status_code : Nat
  text : String
  jsonBody : Option String
deriving Repr, DecidableEq

/-- One visible UI element emitted while handling the upload response. -/
inductive UiEvent where
  | successMsg (msg : String)
  | errorMsg (msg : String)
  | jsonOut (body : String)
  | textOut (body : String)
deriving Repr, DecidableEq

/-- Modelled message text of the JSONDecodeError raised by
`response.json()`; the exact wording is library-defined. -/
def jsonDecodeErrorMsg (text : String) : String :=
  "Expecting value: " ++ text

/-- Outcome of the upload POST itself. -/
inductive UploadHttpResult where
  | response (r : HttpResponse)
  | requestException (msg : String)
deriving Repr, DecidableEq

/-- Lines 84-101 of `show_upload_page`: the UI events emitted after the
upload POST, in order.  On a 200 the success banner is emitted first, then
`response.json()` runs; if the body is unparseable the raised
JSONDecodeError (a RequestException) escapes to the outer handler, which
emits the generic upload error.  On a non-200 the status error is emitted
followed by the structured body when parseable, else by the raw text. -/
def upload_response_events : UploadHttpResult → List UiEvent
  | UploadHttpResult.requestException e =>
      [UiEvent.errorMsg ("An error occurred during upload: " ++ e)]
  | UploadHttpResult.response r =>
    if r.status_code = 200 then
      match r.jsonBody with
      | some b =>
          [UiEvent.successMsg "File processed successfully!", UiEvent.jsonOut b]
      | none =>
          [UiEvent.successMsg "File processed successfully!",
           UiEvent.errorMsg ("An error occurred during upload: " ++
             jsonDecodeErrorMsg r.text)]
    else
      match r.jsonBody with
      | some b =>
          [UiEvent.errorMsg ("Upload failed. Status code: " ++
             toString r.status_code), UiEvent.jsonOut b]
      | none =>
          [UiEvent.errorMsg ("Upload failed. Status code: " ++
             toString r.status_code), UiEvent.textOut r.text]

/-- A sample record with the given display name and file id (all other
fields fixed plausible values). -/
def mkRow (name id : String) : SearchResultRow :=
  { file_name := name, research_project_id := "BBBO", author := "wkm2109",
    file_type := "MAT", experiment_type := "Frequency_Sweep",
    date_conducted := some (2024, 5, 7), size_bytes := some 123,
    custom_tags := "tag1", upload_timestamp := some (2024, 5, 8, 12, 0, 0),
    file_id := id, minio_object_path := "raw/a" }

/-- Two rows sharing a file name, one of them with a blank file id. -/
def rsDup : List SearchResultRow := [mkRow "a" "x", mkRow "a" ""]

/-- Two rows sharing the file name run1.csv with distinct file ids. -/
def rsDup2 : List SearchResultRow := [mkRow "run1.csv" "a1", mkRow "run1.csv" "a2"]

/-- A single row named a with file id x. -/
def rsSingle : List SearchResultRow := [mkRow "a" "x"]

/-- A single row whose file name is the blank string. -/
def rsBlankName : List SearchResultRow := [mkRow "" "z"]

/-- An upload form with a blank author field. -/
def uf7 : UploadForm :=
  { research_project_id := "BBBO", author := "", experiment_type := "cal",
    date_conducted := none, custom_tags := "" }

/-- A fully populated valid upload form. -/
def uf8 : UploadForm :=
  { research_project_id := "BBBO", author := "wkm2109",
    experiment_type := "Frequency_Sweep", date_conducted := some (2024, 5, 7),
    custom_tags := "tag1, important_data" }

theorem mapCellsM_map {α : Type} (f : Cell → Option Cell) (i : Nat)
    (g g' : α → List Cell)
    (h : ∀ a, ∃ v, f ((g a).getD i Cell.null) = some v ∧ (g a).set i v = g' a) :
    ∀ l : List α, mapCellsM f i (l.map g) = some (l.map g')
  | [] => rfl
  | a :: l => by
      obtain ⟨v, hv, hset⟩ := h a
      have ih := mapCellsM_map f i g g' h l
      simp only [List.map_cons, mapCellsM]
      rw [hv, ih]
      show some ((g a).set i v :: List.map g' l) = some (g' a :: List.map g' l)
      rw [hset]

theorem stage_date (l : List SearchResultRow) :
    mapColM ⟨desired_order, l.map rowCells⟩ "date_conducted" strftimeDateCell =
      some ⟨desired_order, l.map row1⟩ := by
  have h : ∀ y : SearchResultRow, ∃ v,
      strftimeDateCell ((rowCells y).getD (desired_order.indexOf "date_conducted") Cell.null) = some v ∧
      (rowCells y).set (desired_order.indexOf "date_conducted") v = row1 y := by
    intro y
    cases hdc : y.date_conducted with
    | none => exact ⟨Cell.null, by simp [rowCells, hdc, dateCell, strftimeDateCell, row1, fmtDate, desired_order]⟩
    | some p =>
      obtain ⟨a, b, c⟩ := p
      exact ⟨Cell.str (toString a ++ "-" ++ pad2 b ++ "-" ++ pad2 c),
        by simp [rowCells, hdc, dateCell, strftimeDateCell, row1, fmtDate, desired_order]⟩
  simp [mapColM, mapCellsM_map strftimeDateCell _ rowCells row1 h l]

theorem stage_ts (l : List SearchResultRow) :
    mapColM ⟨desired_order, l.map row1⟩ "upload_timestamp" strftimeTimestampCell =
      some ⟨desired_order, l.map row2⟩ := by
  have h : ∀ y : SearchResultRow, ∃ v,
      strftimeTimestampCell ((row1 y).getD (desired_order.indexOf "upload_timestamp") Cell.null) = some v ∧
      (row1 y).set (desired_order.indexOf "upload_timestamp") v = row2 y := by
    intro y
    cases hts : y.upload_timestamp with
    | none => exact ⟨Cell.null, by simp [row1, hts, tsCell, strftimeTimestampCell, row2, fmtTs, desired_order]⟩
    | some p =>
      obtain ⟨a, b, c, d, e, f⟩ := p
      exact ⟨Cell.str (toString a ++ "-" ++ pad2 b ++ "-" ++ pad2 c ++ " " ++
          pad2 d ++ ":" ++ pad2 e ++ ":" ++ pad2 f),
        by simp [row1, hts, tsCell, strftimeTimestampCell, row2, fmtTs, desired_order]⟩
  simp [mapColM, mapCellsM_map strftimeTimestampCell _ row1 row2 h l]

theorem stage_size (l : List SearchResultRow) :
    mapColM ⟨desired_order, l.map row2⟩ "size_bytes"
        (fun c => astypeInt (fillnaZero c)) =
      some ⟨desired_order, l.map formattedRow⟩ := by
  have h : ∀ y : SearchResultRow, ∃ v,
      astypeInt (fillnaZero ((row2 y).getD (desired_order.indexOf "size_bytes") Cell.null)) = some v ∧
      (row2 y).set (desired_order.indexOf "size_bytes") v = formattedRow y := by
    intro y
    cases hsb : y.size_bytes with
    | none => exact ⟨Cell.int 0, by simp [row2, hsb, intCell, fillnaZero, astypeInt, formattedRow, desired_order]⟩
    | some n => exact ⟨Cell.int n, by simp [row2, hsb, intCell, fillnaZero, astypeInt, formattedRow, desired_order]⟩
  simp [mapColM, mapCellsM_map (fun c => astypeInt (fillnaZero c)) _ row2 formattedRow h l]

theorem select_id (l : List SearchResultRow) :
    selectCols ⟨desired_order, l.map rowCells⟩ desired_order =
      ⟨desired_order, l.map rowCells⟩ := by
  simp only [selectCols, List.map_map]
  exact congrArg (DataFrame.mk desired_order) (List.map_congr_left fun y _ => rfl)

theorem format_toDataFrame_cons (x : SearchResultRow) (rs : List SearchResultRow) :
    format_search_results (toDataFrame (x :: rs)) =
      some ⟨formattedCols, (x :: rs).map formattedRow⟩ := by
  have hemp : DataFrame.isEmptyDF ⟨desired_order, List.map rowCells (x :: rs)⟩ = false := rfl
  have hfil : desired_order.filter (fun c => desired_order.contains c) = desired_order := by
    decide
  have hc1 : desired_order.contains "date_conducted" = true := by decide
  have hc2 : desired_order.contains "upload_timestamp" = true := by decide
  have hc3 : desired_order.contains "size_bytes" = true := by decide
  have hren : renameCol ⟨desired_order, List.map formattedRow (x :: rs)⟩
      "size_bytes" "size_in_bytes" = ⟨formattedCols, List.map formattedRow (x :: rs)⟩ := by
    simp only [renameCol]
    rw [show List.map (fun c => if c = "size_bytes" then "size_in_bytes" else c)
      desired_order = formattedCols from by decide]
  simp only [toDataFrame, format_search_results, hemp, Bool.false_eq_true, if_false,
    hfil, select_id, hc1, hc2, hc3, if_true, stage_date, stage_ts, stage_size,
    Option.some_bind, Option.map_some', hren]

theorem filter_formatted (s : String) : ∀ l : List SearchResultRow,
    (List.map formattedRow l).filter
        (fun r => decide (cellAt formattedCols r "file_name" = Cell.str s)) =
      List.map formattedRow (l.filter (fun y => decide (y.file_name = s)))
  | [] => rfl
  | y :: l => by
      have hy : decide (cellAt formattedCols (formattedRow y) "file_name" = Cell.str s) =
          decide (y.file_name = s) := by
        refine decide_eq_decide.mpr ?_
        rw [show cellAt formattedCols (formattedRow y) "file_name" =
          Cell.str y.file_name from rfl]
        exact ⟨Cell.str.inj, congrArg Cell.str⟩
      rw [List.map_cons, List.filter_cons, List.filter_cons, hy]
      cases hd : decide (y.file_name = s) with
      | false => simp only [Bool.false_eq_true, if_false, filter_formatted s l]
      | true => simp only [if_true, List.map_cons, filter_formatted s l]

theorem resolveFromResults_cons (base : String) (x : SearchResultRow)
    (l : List SearchResultRow) (sel sel2 : Option String) :
    resolveFromResults base (x :: l) sel sel2 =
      downloadResolver base ⟨formattedCols, (x :: l).map formattedRow⟩ sel sel2 := by
  unfold resolveFromResults
  rw [format_toDataFrame_cons]
  rfl

theorem downloadResolver_dup (base s : String) (l : List SearchResultRow)
    (hs : ¬s = "")
    (h : 1 < (l.filter (fun y => decide (y.file_name = s))).length) :
    downloadResolver base ⟨formattedCols, l.map formattedRow⟩ (some s) none =
      Except.ok none ∧
    ∀ fid : String, ¬fid = "" →
      downloadResolver base ⟨formattedCols, l.map formattedRow⟩ (some s) (some fid) =
        Except.ok (some (base ++ "/download/" ++ fid)) := by
  have hm := filter_formatted s l
  have hlen : 1 < ((List.map formattedRow l).filter
      (fun r => decide (cellAt formattedCols r "file_name" = Cell.str s))).length := by
    rw [hm, List.length_map]; exact h
  constructor
  · simp only [downloadResolver]
    rw [if_neg hs, if_pos hlen]
  · intro fid hfid
    simp only [downloadResolver]
    rw [if_neg hs, if_pos hlen]
    show (if fid = "" then Except.ok none
          else Except.ok (some (base ++ "/download/" ++ fid))) = _
    rw [if_neg hfid]

theorem downloadResolver_single (base s : String) (l : List SearchResultRow)
    (x : SearchResultRow) (hs : ¬s = "")
    (h : l.filter (fun y => decide (y.file_name = s)) = [x])
    (sel2 : Option String) :
    downloadResolver base ⟨formattedCols, l.map formattedRow⟩ (some s) sel2 =
      Except.ok (some (base ++ "/download/" ++ x.file_id)) := by
  have hm := filter_formatted s l
  simp only [downloadResolver]
  rw [if_neg hs, hm, h]
  rfl

theorem downloadResolver_noMatch (base s : String) (l : List SearchResultRow)
    (hs : ¬s = "") (h : l.filter (fun y => decide (y.file_name = s)) = [])
    (sel2 : Option String) :
    downloadResolver base ⟨formattedCols, l.map formattedRow⟩ (some s) sel2 =
      Except.error "IndexError: single positional indexer is out-of-bounds" := by
  have hm := filter_formatted s l
  simp only [downloadResolver]
  rw [if_neg hs, hm, h]
  rfl

/-- C1 is false exactly as stated: in a ResultSet with two rows named a
whose distinct file_ids are x and the blank string, explicitly selecting
the blank file_id (a member of the matching ids) produces no download
reference at all, because Python's truthiness test on the selectbox value
treats the blank string as no selection. -/
theorem c1_counterexample :
    2 ≤ (rsDup.filter (fun x => decide (x.file_name = "a"))).length ∧
    ((rsDup.filter (fun x => decide (x.file_name = "a"))).map
      (fun x => x.file_id)).Nodup ∧
    ("" : String) ∈ (rsDup.filter (fun x => decide (x.file_name = "a"))).map
      (fun x => x.file_id) ∧
    resolveFromResults "http://localhost:8001" rsDup (some "a") (some "") =
      Except.ok none :=
  ⟨by decide, by decide, by decide, rfl⟩

/-- C1 (amended): for a ResultSet holding two or more rows that share a
file_name with pairwise distinct file_ids, selecting that file_name
produces no download reference until a second explicit selection among the
matching file_ids is made, and — provided the selected file_name and the
chosen file_id are non-blank, since Python truthiness treats a blank
selectbox value as no selection — the reference then produced is keyed by
exactly the chosen file_id. -/
theorem c1_prop (base s : String) (rs : List SearchResultRow)
    (hs : 2 ≤ (rs.filter (fun x => decide (x.file_name = s))).length)
    (hids : ((rs.filter (fun x => decide (x.file_name = s))).map
      (fun x => x.file_id)).Nodup) :
    resolveFromResults base rs (some s) none = Except.ok none ∧
    ∀ fid : String,
      fid ∈ (rs.filter (fun x => decide (x.file_name = s))).map
        (fun x => x.file_id) →
      ¬fid = "" → ¬s = "" →
      resolveFromResults base rs (some s) (some fid) =
        Except.ok (some (base ++ "/download/" ++ fid)) := by
  cases rs with
  | nil =>
    simp only [List.filter_nil, List.length_nil] at hs
    omega
  | cons x l =>
    have hlen : 1 < ((x :: l).filter (fun y => decide (y.file_name = s))).length := hs
    constructor
    · by_cases hse : s = ""
      · subst hse; rfl
      · rw [resolveFromResults_cons]
        exact (downloadResolver_dup base s (x :: l) hse hlen).1
    · intro fid _ hfid hse
      rw [resolveFromResults_cons]
      exact (downloadResolver_dup base s (x :: l) hse hlen).2 fid hfid

/-- C1 witness: on two rows named run1.csv with file_ids a1 and a2, no link
is produced before the second selection, and choosing a2 links to a2. -/
theorem c1_witness :
    2 ≤ (rsDup2.filter (fun x => decide (x.file_name = "run1.csv"))).length ∧
    ((rsDup2.filter (fun x => decide (x.file_name = "run1.csv"))).map
      (fun x => x.file_id)).Nodup ∧
    resolveFromResults "http://localhost:8001" rsDup2 (some "run1.csv") none =
      Except.ok none ∧
    resolveFromResults "http://localhost:8001" rsDup2 (some "run1.csv") (some "a2") =
      Except.ok (some "http://localhost:8001/download/a2") := by
  have h1 : 2 ≤ (rsDup2.filter (fun x => decide (x.file_name = "run1.csv"))).length := by
    decide
  have h2 : ((rsDup2.filter (fun x => decide (x.file_name = "run1.csv"))).map
      (fun x => x.file_id)).Nodup := by decide
  obtain ⟨ha, hb⟩ := c1_prop "http://localhost:8001" "run1.csv" rsDup2 h1 h2
  exact ⟨h1, h2, ha, hb "a2" (by decide) (by decide) (by decide)⟩

/-- C2: the Formatter emits exactly N rows for an N-row ResultSet without
error, and the empty ResultSet formats to the empty table without error. -/
theorem c2_prop :
    (∀ rs : List SearchResultRow, ∃ out,
      format_search_results (toDataFrame rs) = some out ∧
      out.rows.length = rs.length) ∧
    format_search_results (toDataFrame []) = some DataFrame.emptyDF := by
  constructor
  · intro rs
    cases rs with
    | nil => exact ⟨DataFrame.emptyDF, rfl, rfl⟩
    | cons x l =>
      exact ⟨_, format_toDataFrame_cons x l, by simp⟩
  · rfl

/-- Helper: an ISO-rendered date is never the blank string (it always
contains the two dashes). -/
theorem isoDate_ne_empty (p : Nat × Nat × Nat) : isoDate p ≠ "" := by
  obtain ⟨y, m, d⟩ := p
  intro h
  have hlen := congrArg String.length h
  rw [isoDate] at hlen
  rw [String.length_append, String.length_append, String.length_append] at hlen
  rw [show String.length "-" = 1 from rfl, show String.length "" = 0 from rfl] at hlen
  omega

/-- C3: a query key is present in the outgoing parameter set exactly when
its form field is non-blank (text inputs) or set (date pickers); with all
fields blank the parameter set is empty. -/
theorem c3_prop (f : SearchFilter) :
    (("research_project_id" ∈ (searchParams f).map Prod.fst) ↔
      f.research_project_id ≠ "") ∧
    (("author" ∈ (searchParams f).map Prod.fst) ↔ f.author ≠ "") ∧
    (("file_type" ∈ (searchParams f).map Prod.fst) ↔ f.file_type ≠ "") ∧
    (("experiment_type" ∈ (searchParams f).map Prod.fst) ↔
      f.experiment_type ≠ "") ∧
    (("tags_contain" ∈ (searchParams f).map Prod.fst) ↔ f.tags_contain ≠ "") ∧
    (("date_after" ∈ (searchParams f).map Prod.fst) ↔ f.date_after ≠ none) ∧
    (("date_before" ∈ (searchParams f).map Prod.fst) ↔ f.date_before ≠ none) ∧
    searchParams ⟨"", "", "", "", "", none, none⟩ = [] := by
  obtain ⟨rp, au, ft, et, tc, da, db⟩ := f
  by_cases h1 : rp = "" <;> by_cases h2 : au = "" <;> by_cases h3 : ft = "" <;>
    by_cases h4 : et = "" <;> by_cases h5 : tc = "" <;> cases da <;> cases db <;>
    simp_all [searchParams, isoDate_ne_empty]

/-- C4 is false exactly as stated: selecting the non-blank name b over a
ResultSet whose only row is named a gives an empty match set, and the
single-match branch then indexes row 0 of an empty frame, raising an
IndexError — the Resolver does fail with an error. -/
theorem c4_counterexample :
    rsSingle.filter (fun x => decide (x.file_name = "b")) = [] ∧
    resolveFromResults "http://localhost:8001" rsSingle (some "b") none =
      Except.error "IndexError: single positional indexer is out-of-bounds" :=
  ⟨rfl, rfl⟩

/-- C4 (amended): with an empty match set no download reference is ever
produced; an absent or blank selection yields no link and no error, but a
non-blank selected file_name that matches no row raises an IndexError
(`iloc[0]` on the empty matching frame) instead of failing gracefully. -/
theorem c4_prop (base s : String) (rs : List SearchResultRow)
    (sel2 : Option String) (hs : ¬s = "")
    (h : rs.filter (fun x => decide (x.file_name = s)) = []) :
    resolveFromResults base rs (some s) sel2 =
      Except.error "IndexError: single positional indexer is out-of-bounds" ∧
    resolveFromResults base rs (some "") sel2 = Except.ok none ∧
    resolveFromResults base rs none sel2 = Except.ok none := by
  refine ⟨?_, rfl, rfl⟩
  cases rs with
  | nil =>
    simp only [resolveFromResults, downloadResolver]
    rw [if_neg hs]
    rfl
  | cons z l =>
    rw [resolveFromResults_cons]
    exact downloadResolver_noMatch base s (z :: l) hs h sel2

/-- C4 witness at a concrete input: name b over the one-row ResultSet. -/
theorem c4_witness :
    ¬("b" : String) = "" ∧
    rsSingle.filter (fun x => decide (x.file_name = "b")) = [] ∧
    (resolveFromResults "http://localhost:8001" rsSingle (some "b") none =
       Except.error "IndexError: single positional indexer is out-of-bounds" ∧
     resolveFromResults "http://localhost:8001" rsSingle (some "") none =
       Except.ok none ∧
     resolveFromResults "http://localhost:8001" rsSingle none none =
       Except.ok none) :=
  ⟨by decide, rfl, c4_prop "http://localhost:8001" "b" rsSingle none (by decide) rfl⟩

/-- C5: for a non-empty ResultSet the Formatter succeeds, its output
columns are exactly the fixed desired order restricted to the input's
columns with size_bytes renamed to size_in_bytes, and the size column is
the integer coercion of the input sizes with null becoming 0. -/
theorem c5_prop (x : SearchResultRow) (rs : List SearchResultRow) :
    ∃ out, format_search_results (toDataFrame (x :: rs)) = some out ∧
      out.cols = (desired_order.filter
          (fun c => (toDataFrame (x :: rs)).cols.contains c)).map
        (fun c => if c = "size_bytes" then "size_in_bytes" else c) ∧
      out.rows.map (fun r => cellAt out.cols r "size_in_bytes") =
        (x :: rs).map (fun y => Cell.int (y.size_bytes.getD 0)) := by
  refine ⟨_, format_toDataFrame_cons x rs, ?_, ?_⟩
  · show formattedCols = (desired_order.filter
        (fun c => desired_order.contains c)).map
      (fun c => if c = "size_bytes" then "size_in_bytes" else c)
    decide
  · show (List.map formattedRow (x :: rs)).map
        (fun r => cellAt formattedCols r "size_in_bytes") = _
    rw [List.map_map]
    exact List.map_congr_left fun y _ => rfl

/-- C6 is false exactly as stated: a ResultSet whose single row has the
blank string as its file_name gives exactly one match when that name is
selected, yet the truthiness guard on the selection yields no download
reference at all. -/
theorem c6_counterexample :
    (rsBlankName.filter (fun y => decide (y.file_name = ""))).length = 1 ∧
    resolveFromResults "http://localhost:8001" rsBlankName (some "") none =
      Except.ok none ∧
    resolveFromResults "http://localhost:8001" rsBlankName (some "") none ≠
      Except.ok (some ("http://localhost:8001" ++ "/download/" ++
        (mkRow "" "z").file_id)) := by
  refine ⟨by decide, rfl, fun hcon => ?_⟩
  exact absurd (Except.ok.inj hcon) (by simp)

/-- C6 (amended): a non-blank selected file_name whose match set is exactly
one row resolves directly to that row's file_id — the second selection is
never consulted — and the produced reference is keyed by exactly that
file_id. -/
theorem c6_prop (base s : String) (rs : List SearchResultRow)
    (x : SearchResultRow) (hs : ¬s = "")
    (h : rs.filter (fun y => decide (y.file_name = s)) = [x])
    (sel2 : Option String) :
    resolveFromResults base rs (some s) sel2 =
      Except.ok (some (base ++ "/download/" ++ x.file_id)) := by
  cases rs with
  | nil => simp at h
  | cons z l =>
    rw [resolveFromResults_cons]
    exact downloadResolver_single base s (z :: l) x hs h sel2

/-- C6 witness: the one-row ResultSet with name a resolves to file id x,
whatever the (ignored) second selection is. -/
theorem c6_witness :
    ¬("a" : String) = "" ∧
    rsSingle.filter (fun y => decide (y.file_name = "a")) = [mkRow "a" "x"] ∧
    resolveFromResults "http://localhost:8001" rsSingle (some "a") none =
      Except.ok (some "http://localhost:8001/download/x") :=
  ⟨by decide, by decide,
    c6_prop "http://localhost:8001" "a" rsSingle (mkRow "a" "x")
      (by decide) (by decide) none⟩

/-- C7: a submission with a blank project id or a blank author aborts with
the inline field error on both upload tabs; the `fieldError` action carries
no serialized metadata document and no request. -/
theorem c7_prop (base name : String) (f : UploadForm)
    (h : f.research_project_id = "" ∨ f.author = "") :
    single_file_submit base name f =
      FormAction.fieldError "Please fill in all required fields (*)." ∧
    folder_submit base name f =
      FormAction.fieldError "Please fill in all required fields (*)." := by
  constructor
  · simp only [single_file_submit]
    rw [if_pos h]
  · simp only [folder_submit]
    rw [if_pos h]

/-- C7 witness: a form with a blank author is rejected on both tabs. -/
theorem c7_witness :
    (uf7.research_project_id = "" ∨ uf7.author = "") ∧
    single_file_submit "http://localhost:8001" "a.mat" uf7 =
      FormAction.fieldError "Please fill in all required fields (*)." ∧
    folder_submit "http://localhost:8001" "a.zip" uf7 =
      FormAction.fieldError "Please fill in all required fields (*)." :=
  ⟨Or.inr rfl,
   (c7_prop "http://localhost:8001" "a.mat" uf7 (Or.inr rfl)).1,
   (c7_prop "http://localhost:8001" "a.zip" uf7 (Or.inr rfl)).2⟩

/-- C8: a valid submission serializes the metadata to the key-value text
document produced by the unsorted dump, whose keys are exactly
research_project_id, author, experiment_type, date_conducted, custom_tags
in that fixed order, with date_conducted rendered as an ISO-8601 date
string or null. -/
theorem c8_prop (base name : String) (f : UploadForm)
    (h1 : ¬f.research_project_id = "") (h2 : ¬f.author = "") :
    ∃ req, single_file_submit base name f = FormAction.submitRequest req ∧
      req.metadataYaml = yaml_dump (metadata_dict f) ∧
      (metadata_dict f).map Prod.fst =
        ["research_project_id", "author", "experiment_type",
         "date_conducted", "custom_tags"] ∧
      (metadata_dict f).lookup "date_conducted" =
        some (match f.date_conducted with
              | some d => YamlValue.s (isoDate d)
              | none => YamlValue.null) := by
  have hno : ¬(f.research_project_id = "" ∨ f.author = "") := by tauto
  refine ⟨{ url := base ++ "/uploadfile/", fileField := "data_file",
            fileName := name, metadataYaml := yaml_dump (metadata_dict f) },
    ?_, rfl, rfl, rfl⟩
  simp only [single_file_submit]
  rw [if_neg hno]

/-- C8 witness: the fully populated form is serialized with the fixed key
order and an ISO date. -/
theorem c8_witness :
    ¬uf8.research_project_id = "" ∧ ¬uf8.author = "" ∧
    (∃ req, single_file_submit "http://localhost:8001" "a.mat" uf8 =
        FormAction.submitRequest req ∧
      req.metadataYaml = yaml_dump (metadata_dict uf8) ∧
      (metadata_dict uf8).map Prod.fst =
        ["research_project_id", "author", "experiment_type",
         "date_conducted", "custom_tags"] ∧
      (metadata_dict uf8).lookup "date_conducted" =
        some (match uf8.date_conducted with
              | some d => YamlValue.s (isoDate d)
              | none => YamlValue.null)) :=
  ⟨by decide, by decide,
   c8_prop "http://localhost:8001" "a.mat" uf8 (by decide) (by decide)⟩

/-- C9: every search invocation overwrites the stored ResultSet without
consulting the previous value — a 200 with rows stores exactly those rows,
while an empty 200, an unparseable 200 body, a non-200 status, and a
transport failure all store the empty list. -/
theorem c9_prop (prev prev2 rows : List SearchResultRow) (status : Nat)
    (msg : String) (hstatus : status ≠ 200) (hrows : rows ≠ []) :
    search_update prev (SearchHttpResult.response 200 (some rows)) = rows ∧
    search_update prev (SearchHttpResult.response 200 (some [])) = [] ∧
    search_update prev (SearchHttpResult.response 200 none) = [] ∧
    search_update prev (SearchHttpResult.response status (some rows)) = [] ∧
    search_update prev (SearchHttpResult.response status none) = [] ∧
    search_update prev (SearchHttpResult.requestException msg) = [] ∧
    search_update prev (SearchHttpResult.response 200 (some rows)) =
      search_update prev2 (SearchHttpResult.response 200 (some rows)) := by
  refine ⟨?_, rfl, rfl, ?_, ?_, rfl, rfl⟩
  · cases rows with
    | nil => exact absurd rfl hrows
    | cons a l => rfl
  · simp only [search_update]
    rw [if_neg hstatus]
  · simp only [search_update]
    rw [if_neg hstatus]

/-- C9 witness at concrete inputs: status 404 and a one-row result list. -/
theorem c9_witness :
    (404 : Nat) ≠ 200 ∧ rsSingle ≠ ([] : List SearchResultRow) ∧
    (search_update rsDup (SearchHttpResult.response 200 (some rsSingle)) =
       rsSingle ∧
     search_update rsDup (SearchHttpResult.response 200 (some [])) = [] ∧
     search_update rsDup (SearchHttpResult.response 200 none) = [] ∧
     search_update rsDup (SearchHttpResult.response 404 (some rsSingle)) = [] ∧
     search_update rsDup (SearchHttpResult.response 404 none) = [] ∧
     search_update rsDup (SearchHttpResult.requestException "connection refused") =
       [] ∧
     search_update rsDup (SearchHttpResult.response 200 (some rsSingle)) =
       search_update [] (SearchHttpResult.response 200 (some rsSingle))) :=
  ⟨by decide, by decide,
   c9_prop rsDup [] rsSingle 404 "connection refused" (by decide) (by decide)⟩

/-- C10 is false exactly as stated: on a 200 response with an unparseable
body, the success banner has already been emitted before `response.json()`
raises, so the action is not reported as an error instead of success — the
success notice is shown too. -/
theorem c10_counterexample :
    UiEvent.successMsg "File processed successfully!" ∈
      upload_response_events
        (UploadHttpResult.response ⟨200, "not json", none⟩) := by
  decide

/-- C10 (amended): on a 200 response whose body is not parseable JSON, the
body parse raised inside the success path is caught by the same handler
that catches transport failures, so a generic upload error is reported —
but only after the success banner has already been emitted, and the
response body is never displayed. -/
theorem c10_prop (text : String) :
    upload_response_events (UploadHttpResult.response ⟨200, text, none⟩) =
      [UiEvent.successMsg "File processed successfully!",
       UiEvent.errorMsg ("An error occurred during upload: " ++
         jsonDecodeErrorMsg text)] := rfl
